import Mathlib

/-!
Shallow embedding of two plaso source files:
  * plaso/parsers/text_plugins/apt_history.py  (APT History log text plugin)
  * plaso/output/xlsx.py                       (XLSX output module)

Python mutation of `self._event_data` is modelled by explicit state passing;
Python exceptions are modelled by explicit error values.  A Python exception
that escapes a method with earlier side effects already performed is modelled
by returning both the error and the state as mutated so far.
-/

namespace AptHistory

/-- Python exception values that can arise in the embedded code:
`errors.ParseError` (raised explicitly by the plugin) and `AttributeError`
(raised by attribute assignment on `None`, i.e. on a missing accumulator). -/
inductive PyError where
  | parseError (msg : String)
  | attributeError (attr : String)
deriving DecidableEq, Repr

/-- dfdatetime `TimeElements`: six calendar components plus the
`is_local_time` flag (source lines 222-226 set the flag after construction). -/
structure TimeElements where
  year : Int
  month : Int
  day_of_month : Int
  hours : Int
  minutes : Int
  seconds : Int
  is_local_time : Bool
deriving DecidableEq, Repr

/-- dfdatetime `_IsLeapYear` (external library used by the plugin):
`(year % 4 == 0 and year % 100 != 0) or year % 400 == 0`. -/
def isLeapYear (year : Int) : Bool :=
  (year % 4 == 0 && year % 100 != 0) || year % 400 == 0

/-- dfdatetime `_GetDaysPerMonth` for a month already known to be in 1..12. -/
def daysPerMonth (year month : Int) : Int :=
  if month == 2 then (if isLeapYear year then 29 else 28)
  else if month == 4 || month == 6 || month == 9 || month == 11 then 30
  else 31

/-- The dfdatetime `TimeElements` constructor (external library; the spec,
section 3, fixes its contract: each component within calendar range or
construction fails).  Checks are sequential as in the library: month range,
then day of month against days-per-month, then hours, minutes, seconds.
Returns `none` where the library raises `ValueError`. -/
def TimeElementsOfTuple (year month day_of_month hours minutes seconds : Int) :
    Option TimeElements :=
  if month < 1 || month > 12 then none
  else if day_of_month < 1 || day_of_month > daysPerMonth year month then none
  else if hours < 0 || hours > 23 then none
  else if minutes < 0 || minutes > 59 then none
  else if seconds < 0 || seconds > 59 then none
  else some ⟨year, month, day_of_month, hours, minutes, seconds, false⟩

/-- Spec-side predicate (section 3 of the spec): all six components within
calendar-valid range. -/
def validTimeElements (year month day_of_month hours minutes seconds : Int) : Bool :=
  (1 ≤ month && month ≤ 12) &&
  (1 ≤ day_of_month && day_of_month ≤ daysPerMonth year month) &&
  (0 ≤ hours && hours ≤ 23) &&
  (0 ≤ minutes && minutes ≤ 59) &&
  (0 ≤ seconds && seconds ≤ 59)

/-- A six-element integer list with every component in calendar range. -/
def timeElementsListValid (ts : List Int) : Bool :=
  match ts with
  | [year, month, day_of_month, hours, minutes, seconds] =>
      validTimeElements year month day_of_month hours minutes seconds
  | _ => false

/-- `_ParseTimeElements` (source lines 198-232): unpack the six components
(a wrong arity raises `ValueError`), construct a dfdatetime `TimeElements`
(out-of-range components raise `ValueError`), set `is_local_time = True`,
and convert any `TypeError`/`ValueError` into a `ParseError`. -/
def _ParseTimeElements (time_elements_structure : List Int) :
    Except PyError TimeElements :=
  match time_elements_structure with
  | [year, month, day_of_month, hours, minutes, seconds] =>
      match TimeElementsOfTuple year month day_of_month hours minutes seconds with
      | some date_time =>
          Except.ok { date_time with is_local_time := true }
      | none =>
          Except.error (PyError.parseError
            "Unable to parse time elements with error: ValueError")
  | _ =>
      Except.error (PyError.parseError
        "Unable to parse time elements with error: unpack mismatch")

/-- Python whitespace, as removed by `str.strip()`. -/
def isPythonSpace (c : Char) : Bool :=
  c == ' ' || c == '\t' || c == '\n' || c == '\r' || c == '\x0b' || c == '\x0c'

/-- Python `str.strip()`: remove leading and trailing whitespace. -/
def pyStrip (s : String) : String :=
  String.mk
    (((s.toList.dropWhile isPythonSpace).reverse.dropWhile isPythonSpace).reverse)

/-- Python `s[:-1]`: the string without its last character. -/
def pyDropLast (s : String) : String :=
  String.mk s.toList.dropLast

/-- `APTHistoryLogEventData` (source lines 14-40): the record accumulator.
All attributes are initialised to `None`. -/
structure APTHistoryLogEventData where
  command : Option String := none
  command_line : Option String := none
  end_time : Option TimeElements := none
  error : Option String := none
  packages : Option String := none
  requester : Option String := none
  start_time : Option TimeElements := none
deriving DecidableEq, Repr

/-- Token structures produced by the three grammar rules of
`_LINE_STRUCTURES` (source lines 95-98): a start line carries the named
`start_date` group, a body line carries the matched keyword literal and the
rest of the line, an end line carries the named `end_date` group. -/
inductive LineStructure where
  | startDate (start_date : List Int)
  | body (command rest : String)
  | endDate (end_date : List Int)
deriving DecidableEq, Repr

/-- `_GetValueFromStructure(structure, 'start_date')`: the named token,
or `None` when the structure has no such name. -/
def getStartDate (struct : LineStructure) : Option (List Int) :=
  match struct with
  | LineStructure.startDate start_date => some start_date
  | _ => none

/-- `_GetValueFromStructure(structure, 'end_date')`: the named token,
or `None` when the structure has no such name. -/
def getEndDate (struct : LineStructure) : Option (List Int) :=
  match struct with
  | LineStructure.endDate end_date => some end_date
  | _ => none

/-- `_ParseRecordStart` (source lines 183-196).  The method first assigns a
fresh `APTHistoryLogEventData` to `self._event_data` and only then parses the
start timestamp; when `_ParseTimeElements` raises, the fresh accumulator is
already installed, so the returned state is the fresh accumulator together
with the escaping error.  A missing `start_date` value is `None`, which makes
`_ParseTimeElements` raise a `ParseError` (`TypeError` converted). -/
def _ParseRecordStart (struct : LineStructure) :
    Option APTHistoryLogEventData × Option PyError :=
  let event_data : APTHistoryLogEventData := {}
  match getStartDate struct with
  | none =>
      (some event_data, some (PyError.parseError
        "Unable to parse time elements with error: NoneType"))
  | some start_date =>
      match _ParseTimeElements start_date with
      | Except.error e => (some event_data, some e)
      | Except.ok date_time =>
          (some { event_data with start_time := some date_time }, none)

/-- `_ParseRecordBody` (source lines 140-164).  Mutation of
`self._event_data` is modelled by returning the new accumulator state.  When
`self._event_data` is `None`, the attribute assignment in the taken branch
raises `AttributeError`.  A non-body structure unpacks into its leading
literal and remaining group, which matches none of the keyword branches, so
the method is a no-op on it. -/
def _ParseRecordBody (event_data : Option APTHistoryLogEventData)
    (struct : LineStructure) :
    Except PyError (Option APTHistoryLogEventData) :=
  match struct with
  | LineStructure.startDate _ => Except.ok event_data
  | LineStructure.endDate _ => Except.ok event_data
  | LineStructure.body command body =>
      if command == "Commandline:" then
        match event_data with
        | none => Except.error (PyError.attributeError "command_line")
        | some ev => Except.ok (some { ev with command_line := some (pyStrip body) })
      else if command == "Error:" then
        match event_data with
        | none => Except.error (PyError.attributeError "error")
        | some ev => Except.ok (some { ev with error := some (pyStrip body) })
      else if command == "Requested-By:" then
        match event_data with
        | none => Except.error (PyError.attributeError "requester")
        | some ev => Except.ok (some { ev with requester := some (pyStrip body) })
      else if command == "Downgrade:" || command == "Install:" ||
          command == "Purge:" || command == "Remove:" ||
          command == "Upgrade:" then
        match event_data with
        | none => Except.error (PyError.attributeError "command")
        | some ev => Except.ok (some { ev with
            command := some (pyDropLast command),
            packages := some (pyStrip body) })
      else Except.ok event_data

/-- `_ParseRecordEnd` (source lines 166-181).  The end timestamp is parsed
first (the right-hand side of the assignment); a `ParseError` escapes before
any mutation.  The assignment on a `None` accumulator raises
`AttributeError`.  On success the completed record is produced via
`ProduceEventData` and `_ResetState` clears the accumulator: the result is
the new state (`none`) together with the list of emitted records. -/
def _ParseRecordEnd (event_data : Option APTHistoryLogEventData)
    (struct : LineStructure) :
    Except PyError (Option APTHistoryLogEventData × List APTHistoryLogEventData) :=
  let parsed : Except PyError TimeElements :=
    match getEndDate struct with
    | none => Except.error (PyError.parseError
        "Unable to parse time elements with error: NoneType")
    | some end_date => _ParseTimeElements end_date
  match parsed with
  | Except.error e => Except.error e
  | Except.ok date_time =>
      match event_data with
      | none => Except.error (PyError.attributeError "end_time")
      | some ev => Except.ok (none, [{ ev with end_time := some date_time }])

/-- `_SUPPORTED_KEYS` (source line 100): the keys of `_LINE_STRUCTURES`. -/
def _SUPPORTED_KEYS : List String := ["record_start", "record_body", "record_end"]

/-- Result of one `_ParseRecord` call: the accumulator state afterwards, the
extraction warnings produced on the mediator, the event data produced on the
mediator, and the exception escaping the call, if any. -/
structure StepResult where
  event_data : Option APTHistoryLogEventData
  warnings : List String
  emitted : List APTHistoryLogEventData
  exception : Option PyError
deriving DecidableEq, Repr

/-- `_ParseRecord` (source lines 107-138).  An unknown key raises
`ParseError` before anything else.  For `record_start` and `record_end` a
`ParseError` from the helper is caught and converted into an extraction
warning (`except errors.ParseError` catches only `ParseError`; an
`AttributeError` escapes).  The `record_body` call is not wrapped in any
try/except, so every exception from `_ParseRecordBody` escapes. -/
def _ParseRecord (event_data : Option APTHistoryLogEventData) (key : String)
    (struct : LineStructure) : StepResult :=
  if key ∉ _SUPPORTED_KEYS then
    { event_data := event_data, warnings := [], emitted := [],
      exception := some (PyError.parseError
        "Unable to parse record, unknown structure") }
  else if key == "record_start" then
    match _ParseRecordStart struct with
    | (st, none) =>
        { event_data := st, warnings := [], emitted := [], exception := none }
    | (st, some (PyError.parseError _)) =>
        { event_data := st,
          warnings := ["unable to parse record start with error"],
          emitted := [], exception := none }
    | (st, some (PyError.attributeError a)) =>
        { event_data := st, warnings := [], emitted := [],
          exception := some (PyError.attributeError a) }
  else if key == "record_body" then
    match _ParseRecordBody event_data struct with
    | Except.ok st =>
        { event_data := st, warnings := [], emitted := [], exception := none }
    | Except.error e =>
        { event_data := event_data, warnings := [], emitted := [],
          exception := some e }
  else
    match _ParseRecordEnd event_data struct with
    | Except.ok (st, emitted) =>
        { event_data := st, warnings := [], emitted := emitted,
          exception := none }
    | Except.error (PyError.parseError _) =>
        { event_data := event_data,
          warnings := ["unable to parse record end with error"],
          emitted := [], exception := none }
    | Except.error (PyError.attributeError a) =>
        { event_data := event_data, warnings := [], emitted := [],
          exception := some (PyError.attributeError a) }

/-! ### Line matching (the pyparsing grammar of source lines 55-98)

pyparsing elements skip leading whitespace (space, tab, newline by default;
`LineEnd` skips only space and tab), `Word(nums, exact=n)` takes exactly `n`
digit characters, `Literal` matches an exact string, and `restOfLine`
captures the remaining characters up to a newline without skipping
whitespace.  `parseString` matches a prefix of the line. -/

/-- Default pyparsing whitespace skipping: space, tab, newline. -/
def skipPPWhitespace : List Char → List Char
  | c :: rest =>
      if c == ' ' || c == '\t' || c == '\n' then skipPPWhitespace rest
      else c :: rest
  | [] => []

/-- Whitespace skipping of `LineEnd`: space and tab only. -/
def skipSpaceTab : List Char → List Char
  | c :: rest => if c == ' ' || c == '\t' then skipSpaceTab rest else c :: rest
  | [] => []

/-- Take exactly `n` digit characters. -/
def takeDigits : Nat → List Char → Option (List Char × List Char)
  | 0, cs => some ([], cs)
  | n + 1, c :: cs =>
      if c.isDigit then
        match takeDigits n cs with
        | some (ds, rest) => some (c :: ds, rest)
        | none => none
      else none
  | _ + 1, [] => none

/-- Decimal value of a digit string (`text_parser.PyParseIntCast`). -/
def digitsVal (ds : List Char) : Int :=
  ds.foldl (fun acc c => acc * 10 + (Int.ofNat c.toNat - 48)) 0

/-- `Word(nums, exact=n)` with `PyParseIntCast`: skip whitespace, then take
exactly `n` digits and cast them to an integer. -/
def ppWord (n : Nat) (cs : List Char) : Option (Int × List Char) :=
  match takeDigits n (skipPPWhitespace cs) with
  | some (ds, rest) => some (digitsVal ds, rest)
  | none => none

/-- Drop an expected exact character sequence. -/
def dropLiteral : List Char → List Char → Option (List Char)
  | [], cs => some cs
  | p :: ps, c :: cs => if c == p then dropLiteral ps cs else none
  | _ :: _, [] => none

/-- `Literal(lit)`: skip whitespace, then match `lit` exactly. -/
def ppLiteral (lit : String) (cs : List Char) : Option (List Char) :=
  dropLiteral lit.toList (skipPPWhitespace cs)

/-- `LineEnd`: skip space and tab, then match a newline or end of input. -/
def ppLineEnd (cs : List Char) : Option (List Char) :=
  match skipSpaceTab cs with
  | [] => some []
  | c :: rest => if c == '\n' then some rest else none

/-- `ZeroOrMore(lineEnd())` (source line 72): consume leading line ends.
At end of input the loop stops (pyparsing advances past the end once, after
which every following element fails there, matching the `none` result the
caller then produces). -/
def zeroOrMoreLineEnds : Nat → List Char → List Char
  | 0, cs => cs
  | fuel + 1, cs =>
      match skipSpaceTab cs with
      | [] => cs
      | c :: rest =>
          if c == '\n' then zeroOrMoreLineEnds fuel rest else cs

/-- `_APTHISTORY_DATE_TIME` (source lines 61-67): four digits, a dash, two
digits, a dash, two digits, then two digits, a colon, two digits, a colon,
two digits, whitespace-skipped between tokens. -/
def ppDateTime (cs : List Char) : Option (List Int × List Char) := do
  let (year, cs) ← ppWord 4 cs
  let cs ← ppLiteral "-" cs
  let (month, cs) ← ppWord 2 cs
  let cs ← ppLiteral "-" cs
  let (day_of_month, cs) ← ppWord 2 cs
  let (hours, cs) ← ppWord 2 cs
  let cs ← ppLiteral ":" cs
  let (minutes, cs) ← ppWord 2 cs
  let cs ← ppLiteral ":" cs
  let (seconds, cs) ← ppWord 2 cs
  pure ([year, month, day_of_month, hours, minutes, seconds], cs)

/-- `_RECORD_START` (source lines 70-75) applied to one line of text:
optional leading line ends, the literal, the date-time group, a line end. -/
def matchRecordStart (line : String) : Option (List Int) := do
  let cs0 := line.toList
  let cs := zeroOrMoreLineEnds cs0.length cs0
  let cs ← ppLiteral "Start-Date:" cs
  let (start_date, cs) ← ppDateTime cs
  let _ ← ppLineEnd cs
  pure start_date

/-- The keyword literals of `_RECORD_BODY` (source lines 77-87), in
`MatchFirst` order. -/
def _RECORD_BODY_KEYWORDS : List String :=
  ["Commandline:", "Downgrade:", "Error:", "Install:", "Purge:", "Remove:",
   "Requested-By:", "Upgrade:"]

/-- `MatchFirst` over the body keyword literals followed by `restOfLine`. -/
def matchFirstKeyword : List String → List Char → Option (String × String)
  | [], _ => none
  | lit :: lits, cs =>
      match ppLiteral lit cs with
      | some rest =>
          some (lit, String.mk (rest.takeWhile (fun c => c != '\n')))
      | none => matchFirstKeyword lits cs

/-- `_RECORD_BODY` (source lines 77-87) applied to one line of text. -/
def matchRecordBody (line : String) : Option (String × String) :=
  matchFirstKeyword _RECORD_BODY_KEYWORDS line.toList

/-- `_RECORD_END` (source lines 90-93) applied to one line of text: the
literal, the date-time group, at least one line end. -/
def matchRecordEnd (line : String) : Option (List Int) := do
  let cs ← ppLiteral "End-Date:" line.toList
  let (end_date, cs) ← ppDateTime cs
  let _ ← ppLineEnd cs
  pure end_date

/-- Try the rules of `_LINE_STRUCTURES` (source lines 95-98) in their
priority order and return the first match: key plus token structure. -/
def classifyLine (line : String) : Option (String × LineStructure) :=
  match matchRecordStart line with
  | some start_date => some ("record_start", LineStructure.startDate start_date)
  | none =>
      match matchRecordBody line with
      | some (command, rest) => some ("record_body", LineStructure.body command rest)
      | none =>
          match matchRecordEnd line with
          | some end_date => some ("record_end", LineStructure.endDate end_date)
          | none => none

/-! ### Stream-level driver -/

/-- State of one parsing session threaded through the stream-level loop:
the accumulator, the extraction warnings produced so far, the event data
emitted so far, and an uncaught exception that aborted the stream, if any. -/
structure RunState where
  event_data : Option APTHistoryLogEventData
  warnings : List String
  emitted : List APTHistoryLogEventData
  aborted : Option PyError
deriving DecidableEq, Repr

/-- A fresh session: no accumulator, no warnings, nothing emitted. -/
def freshRunState : RunState :=
  { event_data := none, warnings := [], emitted := [], aborted := none }

/-- Modelled from the spec: the stream-level dispatch loop of the text
plugin interface (`interface.TextPlugin`, not under src/).  Per spec
sections 4.3 and 7, a `ParseError` escaping the record dispatch of one line
is reported as a warning and the line is skipped, the stream parse
continues; an exception outside the engine taxonomy (an `AttributeError`)
is not caught anywhere and aborts the stream. -/
def processClassified (rs : RunState) (key : String) (struct : LineStructure) :
    RunState :=
  match rs.aborted with
  | some _ => rs
  | none =>
      let r := _ParseRecord rs.event_data key struct
      match r.exception with
      | none =>
          { event_data := r.event_data, warnings := rs.warnings ++ r.warnings,
            emitted := rs.emitted ++ r.emitted, aborted := none }
      | some (PyError.parseError _) =>
          { event_data := r.event_data,
            warnings := rs.warnings ++ r.warnings ++ ["unable to parse record"],
            emitted := rs.emitted ++ r.emitted, aborted := none }
      | some (PyError.attributeError a) =>
          { event_data := r.event_data, warnings := rs.warnings ++ r.warnings,
            emitted := rs.emitted ++ r.emitted,
            aborted := some (PyError.attributeError a) }

/-- Modelled from the spec: one line of the stream-level loop (not under
src/).  The line is classified against the rule set; a line matching no
rule is reported as a warning and skipped (spec section 4.3), otherwise the
matching key and structure are dispatched to `_ParseRecord`. -/
def processLine (rs : RunState) (line : String) : RunState :=
  match rs.aborted with
  | some _ => rs
  | none =>
      match classifyLine line with
      | none => { rs with warnings := rs.warnings ++ ["unable to parse log line"] }
      | some (key, struct) => processClassified rs key struct

/-- Feed a list of lines through the session, in order. -/
def processLines (rs : RunState) (lines : List String) : RunState :=
  lines.foldl processLine rs

/-- A record accumulator mid-flight: a start time and a command line have
been collected, the end line has not been seen yet. -/
def inFlightRecord : APTHistoryLogEventData :=
  { command_line := some "apt upgrade",
    start_time := some ⟨2019, 7, 10, 16, 38, 12, true⟩ }

/-- A fully populated earlier accumulator, used to exercise the behaviour of
a start line arriving while a record is already in flight. -/
def priorInFlightRecord : APTHistoryLogEventData :=
  { command := some "Install", command_line := some "apt install pkg-c",
    packages := some "pkg-c",
    start_time := some ⟨2019, 7, 9, 12, 0, 0, true⟩ }

/-! ### Format prober -/

/-- Outcome of `_ReadLineOfText` on the probe line: a decoded line of text,
or a `UnicodeDecodeError` raised while reading. -/
inductive ReadLineResult where
  | ok (line : String)
  | unicodeDecodeError
deriving DecidableEq, Repr

/-- `CheckRequiredFormat` (source lines 238-269), threading the accumulator
state explicitly: a decoding error returns `False`; a line not matching
`_RECORD_START` returns `False`; a start timestamp that fails to parse
returns `False`; otherwise `_ResetState` (source lines 234-236) clears the
accumulator and `True` is returned. -/
def CheckRequiredFormat (event_data : Option APTHistoryLogEventData)
    (input : ReadLineResult) : Bool × Option APTHistoryLogEventData :=
  match input with
  | ReadLineResult.unicodeDecodeError => (false, event_data)
  | ReadLineResult.ok line =>
      match matchRecordStart line with
      | none => (false, event_data)
      | some start_date =>
          match _ParseTimeElements start_date with
          | Except.error _ => (false, event_data)
          | Except.ok _ => (true, none)

end AptHistory

namespace Xlsx

/-- Microseconds since the POSIX epoch of `datetime.datetime.min`
(0001-01-01 00:00:00). -/
def pythonDatetimeMin : Int := -62135596800000000

/-- Microseconds since the POSIX epoch of `datetime.datetime.max`
(9999-12-31 23:59:59.999999). -/
def pythonDatetimeMax : Int := 253402300799999999

/-- Return value of `_FormatDateTime`: a naive `datetime.datetime`
(represented by its microseconds since the POSIX epoch; the `tzinfo` has
been removed by `replace(tzinfo=None)`), or the string `ERROR`. -/
inductive FormatDateTimeResult where
  | datetimeValue (microseconds_since_epoch : Int)
  | errorString
deriving DecidableEq, Repr

/-- Whether `datetime(1970,1,1, tzinfo=UTC) + timedelta(microseconds=ts)`
stays within the representable `datetime` range (otherwise the addition
raises `OverflowError`). -/
def timestampInRange (timestamp : Int) : Bool :=
  pythonDatetimeMin ≤ timestamp && timestamp ≤ pythonDatetimeMax

/-- Whether the whole body of `_FormatDateTime` runs without an
`OverflowError` for a timezone with the given fixed UTC offset in
microseconds: the epoch addition must stay in range and `astimezone` must
produce an in-range local time. -/
def convertsWithoutOverflow (timestamp tz_offset : Int) : Bool :=
  timestampInRange timestamp && timestampInRange (timestamp + tz_offset)

/-- `_FormatDateTime` (source lines 56-83), for an output mediator timezone
modelled as a fixed UTC offset in microseconds.  The aware datetime is the
epoch plus `event.timestamp` microseconds; `astimezone` is called but its
result is discarded (source line 74 does not assign it); the returned value
is the epoch-plus-timestamp datetime with `tzinfo` removed.  On
`OverflowError` (from the timedelta addition or from `astimezone`) the
event error is reported and the string `ERROR` is returned. -/
def _FormatDateTime (timestamp tz_offset : Int) : FormatDateTimeResult :=
  if timestampInRange timestamp then
    if timestampInRange (timestamp + tz_offset) then
      FormatDateTimeResult.datetimeValue timestamp
    else FormatDateTimeResult.errorString
  else FormatDateTimeResult.errorString

/-- `_MAXIMUM_COLUMN_WIDTH` (source line 31). -/
def _MAXIMUM_COLUMN_WIDTH : Nat := 50

/-- `_MINIMUM_COLUMN_WIDTH` (source line 32). -/
def _MINIMUM_COLUMN_WIDTH : Nat := 6

/-- The column-width update of `WriteEventBody` (source lines 182-187):
`column_width = min(value_length + 2, 50)` then
`column_width = max(column_width, 6, previous_width)`. -/
def updateColumnWidth (previous_width value_length : Nat) : Nat :=
  max (max (min (value_length + 2) _MAXIMUM_COLUMN_WIDTH)
    _MINIMUM_COLUMN_WIDTH) previous_width

/-- The effect of one `WriteEventBody` call (source lines 156-189) on
`self._column_widths`: each stored width is updated from the length of the
value written in its column (for the datetime column the length of the
timestamp format string, for every other column the length of the formatted
field value). -/
def WriteEventBody (column_widths value_lengths : List Nat) : List Nat :=
  List.zipWith updateColumnWidth column_widths value_lengths

/-- The effect of `WriteHeader` (source lines 191-205) on
`self._column_widths`: one width per field, the field name length plus 2. -/
def WriteHeader (fields : List String) : List Nat :=
  fields.map (fun field_name => field_name.length + 2)

end Xlsx

/-! ## Theorems -/

namespace AptHistory

theorem timeElementsOfTuple_some_of_valid (y mo d hr mi s : Int)
    (h : validTimeElements y mo d hr mi s = true) :
    TimeElementsOfTuple y mo d hr mi s = some ⟨y, mo, d, hr, mi, s, false⟩ := by
  unfold validTimeElements at h
  simp only [Bool.and_eq_true, decide_eq_true_eq] at h
  obtain ⟨⟨⟨⟨⟨h1, h2⟩, h3, h4⟩, h5, h6⟩, h7, h8⟩, h9, h10⟩ := h
  unfold TimeElementsOfTuple
  split_ifs with g1 g2 g3 g4 g5
  · exfalso; simp only [Bool.or_eq_true, decide_eq_true_eq] at g1; omega
  · exfalso; simp only [Bool.or_eq_true, decide_eq_true_eq] at g2; omega
  · exfalso; simp only [Bool.or_eq_true, decide_eq_true_eq] at g3; omega
  · exfalso; simp only [Bool.or_eq_true, decide_eq_true_eq] at g4; omega
  · exfalso; simp only [Bool.or_eq_true, decide_eq_true_eq] at g5; omega
  · rfl

theorem timeElementsOfTuple_none_of_invalid (y mo d hr mi s : Int)
    (h : validTimeElements y mo d hr mi s = false) :
    TimeElementsOfTuple y mo d hr mi s = none := by
  unfold validTimeElements at h
  unfold TimeElementsOfTuple
  split_ifs with g1 g2 g3 g4 g5 <;> try rfl
  exfalso
  simp only [Bool.or_eq_true, decide_eq_true_eq, not_or] at g1 g2 g3 g4 g5
  simp only [Bool.and_eq_false_iff, decide_eq_false_iff_not, not_le] at h
  omega

theorem parseTimeElements_ok_of_valid (ts : List Int)
    (h : timeElementsListValid ts = true) :
    ∃ te, _ParseTimeElements ts = Except.ok te ∧ te.is_local_time = true ∧
      ts = [te.year, te.month, te.day_of_month, te.hours, te.minutes,
        te.seconds] := by
  rcases ts with _ | ⟨y, _ | ⟨mo, _ | ⟨d, _ | ⟨hr, _ | ⟨mi, _ | ⟨s, _ | ⟨x, rest⟩⟩⟩⟩⟩⟩⟩
  all_goals try exact Bool.noConfusion h
  have h6 : validTimeElements y mo d hr mi s = true := h
  refine ⟨⟨y, mo, d, hr, mi, s, true⟩, ?_, rfl, rfl⟩
  simp only [_ParseTimeElements, timeElementsOfTuple_some_of_valid y mo d hr mi s h6]

theorem parseTimeElements_error_of_invalid (ts : List Int)
    (h : timeElementsListValid ts = false) :
    ∃ msg, _ParseTimeElements ts = Except.error (PyError.parseError msg) := by
  rcases ts with _ | ⟨y, _ | ⟨mo, _ | ⟨d, _ | ⟨hr, _ | ⟨mi, _ | ⟨s, _ | ⟨x, rest⟩⟩⟩⟩⟩⟩⟩
  all_goals try exact
    ⟨"Unable to parse time elements with error: unpack mismatch", rfl⟩
  have h6 : validTimeElements y mo d hr mi s = false := h
  refine ⟨"Unable to parse time elements with error: ValueError", ?_⟩
  simp only [_ParseTimeElements, timeElementsOfTuple_none_of_invalid y mo d hr mi s h6]

theorem parseRecord_start_ok (st : Option APTHistoryLogEventData)
    (start_date : List Int) (te : TimeElements)
    (h : _ParseTimeElements start_date = Except.ok te) :
    _ParseRecord st "record_start" (LineStructure.startDate start_date) =
      { event_data := some { start_time := some te }, warnings := [],
        emitted := [], exception := none } := by
  unfold _ParseRecord _ParseRecordStart getStartDate
  rw [if_neg (by decide)]
  rw [if_pos (by decide)]
  simp only [h]

theorem parseRecord_start_invalid (st : Option APTHistoryLogEventData)
    (start_date : List Int) (h : timeElementsListValid start_date = false) :
    _ParseRecord st "record_start" (LineStructure.startDate start_date) =
      { event_data := some { },
        warnings := ["unable to parse record start with error"],
        emitted := [], exception := none } := by
  obtain ⟨msg, hmsg⟩ := parseTimeElements_error_of_invalid start_date h
  unfold _ParseRecord _ParseRecordStart getStartDate
  rw [if_neg (by decide)]
  rw [if_pos (by decide)]
  simp only [hmsg]

theorem parseRecord_end_invalid (st : Option APTHistoryLogEventData)
    (end_date : List Int) (h : timeElementsListValid end_date = false) :
    _ParseRecord st "record_end" (LineStructure.endDate end_date) =
      { event_data := st,
        warnings := ["unable to parse record end with error"],
        emitted := [], exception := none } := by
  obtain ⟨msg, hmsg⟩ := parseTimeElements_error_of_invalid end_date h
  unfold _ParseRecord _ParseRecordEnd getEndDate
  rw [if_neg (by decide)]
  rw [if_neg (by decide)]
  rw [if_neg (by decide)]
  simp only [hmsg]

/-- C1: an orphaned body line (a line classified `record_body` while no
record accumulator is active) does NOT produce a warning and does not leave
the session cleanly: the attribute assignment on the missing accumulator
raises an `AttributeError` that escapes `_ParseRecord` (the `record_body`
dispatch at source lines 130-131 has no try/except), and, not being a
`ParseError`, it is caught nowhere and aborts the stream.  The claim (and
spec sections 4.3 and 7, `OrphanTransition`) promise a warning and a
discarded line instead; the docstring of `_ParseRecordBody` likewise
promises a `ParseError`.  Evaluated at the failing input. -/
theorem orphan_body_line_raises_attribute_error :
    _ParseRecord none "record_body"
        (LineStructure.body "Commandline:" " apt upgrade") =
      { event_data := none, warnings := [], emitted := [],
        exception := some (PyError.attributeError "command_line") } ∧
    (processLine freshRunState "Commandline: apt upgrade").aborted =
      some (PyError.attributeError "command_line") ∧
    (processLine freshRunState "Commandline: apt upgrade").warnings = [] :=
  ⟨rfl, rfl, rfl⟩

/-- C2 counterexample: processing the start line with out-of-range month 13
while Idle leaves an active record accumulator (a fresh, empty
`APTHistoryLogEventData`), so the session does NOT remain Idle as the claim
states. -/
theorem broken_start_line_not_idle_counterexample :
    (_ParseRecord none "record_start"
        (LineStructure.startDate [2019, 13, 10, 16, 38, 12])).event_data =
      some { } ∧
    (_ParseRecord none "record_start"
        (LineStructure.startDate [2019, 13, 10, 16, 38, 12])).event_data ≠
      none := by
  exact ⟨rfl, by decide⟩

/-- C2 amended: for every start line whose six date/time components are out
of calendar range, processing the line (in any session state) emits exactly
one non-fatal warning, emits no record, and installs a fresh accumulator
with no populated fields — the session does not return to Idle, but a
subsequent valid start line still works, because a successful start parse
unconditionally replaces the accumulator. -/
theorem broken_start_line_amended (st : Option APTHistoryLogEventData)
    (start_date : List Int) (h : timeElementsListValid start_date = false) :
    _ParseRecord st "record_start" (LineStructure.startDate start_date) =
      { event_data := some { },
        warnings := ["unable to parse record start with error"],
        emitted := [], exception := none } ∧
    (∀ start_date2 te, _ParseTimeElements start_date2 = Except.ok te →
      _ParseRecord (some { }) "record_start"
          (LineStructure.startDate start_date2) =
        { event_data := some { start_time := some te }, warnings := [],
          emitted := [], exception := none }) :=
  ⟨parseRecord_start_invalid st start_date h,
   fun start_date2 te h2 => parseRecord_start_ok (some { }) start_date2 te h2⟩

theorem broken_start_line_amended_witness :
    _ParseRecord none "record_start"
        (LineStructure.startDate [2019, 13, 10, 16, 38, 12]) =
      { event_data := some { },
        warnings := ["unable to parse record start with error"],
        emitted := [], exception := none } :=
  (broken_start_line_amended none [2019, 13, 10, 16, 38, 12] (by decide)).1

/-- C3 counterexample: an end line with out-of-range month 13 processed
while a record is in flight produces the warning and emits nothing, but the
in-flight record is NOT discarded: the accumulator still holds it (the
claim states the session returns to Idle). -/
theorem broken_end_line_record_kept_counterexample :
    (_ParseRecord (some inFlightRecord) "record_end"
        (LineStructure.endDate [2019, 13, 10, 16, 38, 20])).event_data =
      some inFlightRecord ∧
    (_ParseRecord (some inFlightRecord) "record_end"
        (LineStructure.endDate [2019, 13, 10, 16, 38, 20])).event_data ≠
      none ∧
    (_ParseRecord (some inFlightRecord) "record_end"
        (LineStructure.endDate [2019, 13, 10, 16, 38, 20])).emitted = [] ∧
    (_ParseRecord (some inFlightRecord) "record_end"
        (LineStructure.endDate [2019, 13, 10, 16, 38, 20])).warnings =
      ["unable to parse record end with error"] := by
  exact ⟨rfl, by decide, rfl, rfl⟩

/-- C3 amended: for every end line whose timestamp fails to parse, processed
while a record is in flight, a non-fatal warning is emitted and the record
is not emitted, but the in-flight record is retained (the session stays
Active with the same accumulator); the engine still accepts a fresh start
line immediately after, because a successful start parse unconditionally
replaces the accumulator. -/
theorem broken_end_line_amended (ev : APTHistoryLogEventData)
    (end_date : List Int) (h : timeElementsListValid end_date = false) :
    _ParseRecord (some ev) "record_end" (LineStructure.endDate end_date) =
      { event_data := some ev,
        warnings := ["unable to parse record end with error"],
        emitted := [], exception := none } ∧
    (∀ start_date te, _ParseTimeElements start_date = Except.ok te →
      _ParseRecord (some ev) "record_start"
          (LineStructure.startDate start_date) =
        { event_data := some { start_time := some te }, warnings := [],
          emitted := [], exception := none }) :=
  ⟨parseRecord_end_invalid (some ev) end_date h,
   fun start_date te h2 => parseRecord_start_ok (some ev) start_date te h2⟩

theorem broken_end_line_amended_witness :
    _ParseRecord (some inFlightRecord) "record_end"
        (LineStructure.endDate [2019, 13, 10, 16, 38, 20]) =
      { event_data := some inFlightRecord,
        warnings := ["unable to parse record end with error"],
        emitted := [], exception := none } :=
  (broken_end_line_amended inFlightRecord [2019, 13, 10, 16, 38, 20]
    (by decide)).1

/-- C4: feeding a fresh session the four concrete lines emits exactly one
record with the trimmed field values, both timestamps flagged local, no
warnings, and no active accumulator afterwards. -/
theorem concrete_scenario_single_record :
    processLines freshRunState
        ["Start-Date: 2019-07-10  16:38:12", "Commandline: apt upgrade",
         "Upgrade: pkg-a, pkg-b", "End-Date: 2019-07-10  16:38:20"] =
      { event_data := none, warnings := [],
        emitted := [{ command := some "Upgrade",
                      command_line := some "apt upgrade",
                      end_time := some ⟨2019, 7, 10, 16, 38, 20, true⟩,
                      error := none,
                      packages := some "pkg-a, pkg-b",
                      requester := none,
                      start_time := some ⟨2019, 7, 10, 16, 38, 12, true⟩ }],
        aborted := none } := by
  rfl

/-- C5: `_ParseTimeElements` either returns a validated `TimeElements`
carrying exactly the six input components with the local-time flag set, or
fails with a `ParseError`; it fails exactly when the shape is wrong (arity
other than six) or some component is out of calendar range, and there is no
partially-valid result. -/
theorem parse_time_elements_exact (ts : List Int) :
    (timeElementsListValid ts = true →
      ∃ te, _ParseTimeElements ts = Except.ok te ∧ te.is_local_time = true ∧
        ts = [te.year, te.month, te.day_of_month, te.hours, te.minutes,
          te.seconds]) ∧
    (timeElementsListValid ts = false →
      ∃ msg, _ParseTimeElements ts = Except.error (PyError.parseError msg)) :=
  ⟨parseTimeElements_ok_of_valid ts, parseTimeElements_error_of_invalid ts⟩

theorem parse_time_elements_exact_witness :
    ∃ te, _ParseTimeElements [2019, 7, 10, 16, 38, 12] = Except.ok te ∧
      te.is_local_time = true ∧
      ([2019, 7, 10, 16, 38, 12] : List Int) =
        [te.year, te.month, te.day_of_month, te.hours, te.minutes,
          te.seconds] :=
  (parse_time_elements_exact [2019, 7, 10, 16, 38, 12]).1 (by decide)

/-- C6: the format prober returns `False` (no exception propagates) when
reading the probe line raises a decoding error, and on every outcome it
leaves a fresh session with no active record accumulator. -/
theorem check_required_format_clean_state (input : ReadLineResult) :
    (CheckRequiredFormat none input).2 = none ∧
    (input = ReadLineResult.unicodeDecodeError →
      (CheckRequiredFormat none input).1 = false) := by
  constructor
  · cases input with
    | unicodeDecodeError => rfl
    | ok line =>
        cases hm : matchRecordStart line with
        | none => simp [CheckRequiredFormat, hm]
        | some start_date =>
            cases hp : _ParseTimeElements start_date with
            | error e => simp [CheckRequiredFormat, hm, hp]
            | ok te => simp [CheckRequiredFormat, hm, hp]
  · intro h
    subst h
    rfl

theorem check_required_format_clean_state_witness :
    (CheckRequiredFormat none ReadLineResult.unicodeDecodeError).1 = false ∧
    (CheckRequiredFormat none ReadLineResult.unicodeDecodeError).2 = none :=
  ⟨(check_required_format_clean_state ReadLineResult.unicodeDecodeError).2 rfl,
   (check_required_format_clean_state ReadLineResult.unicodeDecodeError).1⟩

theorem parseRecordBody_no_parse_error (ev : Option APTHistoryLogEventData)
    (struct : LineStructure) (msg : String) :
    _ParseRecordBody ev struct ≠ Except.error (PyError.parseError msg) := by
  rcases struct with sd | ⟨c, r⟩ | ed
  · simp [_ParseRecordBody]
  · simp only [_ParseRecordBody]
    split_ifs <;> rcases ev with _ | ev <;> simp
  · simp [_ParseRecordBody]

/-- C7: dispatching a line with a key outside the rule set raises a
classification `ParseError` for that line only: the accumulator is
unchanged, and at the stream level the error is reported as a warning and
parsing continues (the stream is not aborted); for the three supported keys
no such classification error is ever raised. -/
theorem unknown_structure_key_fatal_line_only (key : String)
    (hkey : key ∉ _SUPPORTED_KEYS) (st : Option APTHistoryLogEventData)
    (struct : LineStructure) (w : List String)
    (em : List APTHistoryLogEventData) :
    _ParseRecord st key struct =
      { event_data := st, warnings := [], emitted := [],
        exception := some (PyError.parseError
          "Unable to parse record, unknown structure") } ∧
    processClassified
        { event_data := st, warnings := w, emitted := em, aborted := none }
        key struct =
      { event_data := st, warnings := w ++ ["unable to parse record"],
        emitted := em, aborted := none } ∧
    (∀ k ∈ _SUPPORTED_KEYS, ∀ st2 struct2 msg,
      (_ParseRecord st2 k struct2).exception ≠
        some (PyError.parseError msg)) := by
  have h1 : _ParseRecord st key struct =
      { event_data := st, warnings := [], emitted := [],
        exception := some (PyError.parseError
          "Unable to parse record, unknown structure") } := by
    unfold _ParseRecord
    rw [if_pos hkey]
  refine ⟨h1, ?_, ?_⟩
  · unfold processClassified
    rw [h1]
    simp
  · intro k hk st2 struct2 msg
    simp only [_SUPPORTED_KEYS, List.mem_cons, List.mem_singleton,
      List.not_mem_nil, or_false] at hk
    rcases hk with rfl | rfl | rfl
    · unfold _ParseRecord
      rw [if_neg (by decide), if_pos (by decide)]
      rcases _ParseRecordStart struct2 with ⟨st3, _ | (⟨m⟩ | ⟨a⟩)⟩ <;> simp
    · unfold _ParseRecord
      rw [if_neg (by decide), if_neg (by decide), if_pos (by decide)]
      cases hb : _ParseRecordBody st2 struct2 with
      | ok st3 => simp
      | error e =>
          cases e with
          | parseError m =>
              exact absurd hb (parseRecordBody_no_parse_error st2 struct2 m)
          | attributeError a => simp
    · unfold _ParseRecord
      rw [if_neg (by decide), if_neg (by decide), if_neg (by decide)]
      rcases _ParseRecordEnd st2 struct2 with ⟨st3, em3⟩ | (⟨m⟩ | ⟨a⟩) <;> simp

theorem unknown_structure_key_fatal_line_only_witness :
    processClassified
        { event_data := none, warnings := [], emitted := [], aborted := none }
        "bogus_key" (LineStructure.body "Commandline:" " x") =
      { event_data := none, warnings := ["unable to parse record"],
        emitted := [], aborted := none } :=
  (unknown_structure_key_fatal_line_only "bogus_key" (by decide) none
    (LineStructure.body "Commandline:" " x") [] []).2.1

/-- C8: a successfully parsed start line unconditionally installs a fresh
accumulator whose only populated field is the new start time, whatever the
previous session state was: an earlier in-flight record is silently
discarded — nothing is emitted and no warning is produced. -/
theorem start_line_installs_fresh_accumulator
    (st : Option APTHistoryLogEventData) (start_date : List Int)
    (te : TimeElements) (h : _ParseTimeElements start_date = Except.ok te) :
    _ParseRecord st "record_start" (LineStructure.startDate start_date) =
      { event_data := some { start_time := some te }, warnings := [],
        emitted := [], exception := none } :=
  parseRecord_start_ok st start_date te h

theorem start_line_installs_fresh_accumulator_witness :
    _ParseRecord (some priorInFlightRecord) "record_start"
        (LineStructure.startDate [2019, 7, 10, 16, 38, 12]) =
      { event_data :=
          some { start_time := some ⟨2019, 7, 10, 16, 38, 12, true⟩ },
        warnings := [], emitted := [], exception := none } :=
  start_line_installs_fresh_accumulator (some priorInFlightRecord)
    [2019, 7, 10, 16, 38, 12] ⟨2019, 7, 10, 16, 38, 12, true⟩ rfl

end AptHistory

namespace Xlsx

/-- C9: for every event whose timestamp converts without overflow,
`_FormatDateTime` returns the naive datetime `1970-01-01T00:00:00` plus
`event.timestamp` microseconds with timezone information removed, and the
returned value is identical for any two runs differing only in the
configured output timezone (the `astimezone` result is discarded at source
line 74); on overflow the string `ERROR` is returned instead of raising. -/
theorem format_datetime_timezone_independent (timestamp tz1 tz2 : Int)
    (h1 : convertsWithoutOverflow timestamp tz1 = true)
    (h2 : convertsWithoutOverflow timestamp tz2 = true) :
    _FormatDateTime timestamp tz1 =
      FormatDateTimeResult.datetimeValue timestamp ∧
    _FormatDateTime timestamp tz1 = _FormatDateTime timestamp tz2 ∧
    (∀ ts2 tz, timestampInRange ts2 = false →
      _FormatDateTime ts2 tz = FormatDateTimeResult.errorString) := by
  simp only [convertsWithoutOverflow, Bool.and_eq_true] at h1 h2
  refine ⟨?_, ?_, ?_⟩
  · simp [_FormatDateTime, h1.1, h1.2]
  · simp [_FormatDateTime, h1.1, h1.2, h2.1, h2.2]
  · intro ts2 tz hov
    simp [_FormatDateTime, hov]

theorem format_datetime_timezone_independent_witness :
    _FormatDateTime 0 (-18000000000) = FormatDateTimeResult.datetimeValue 0 ∧
    _FormatDateTime 0 (-18000000000) = _FormatDateTime 0 7200000000 :=
  ⟨(format_datetime_timezone_independent 0 (-18000000000) 7200000000
      (by decide) (by decide)).1,
   (format_datetime_timezone_independent 0 (-18000000000) 7200000000
      (by decide) (by decide)).2.1⟩

theorem updateColumnWidth_ge (w l : Nat) : w ≤ updateColumnWidth w l :=
  Nat.le_max_right _ _

theorem writeEventBody_getD_ge (ws ls : List Nat)
    (hl : ls.length = ws.length) (i : Nat) :
    ws.getD i 0 ≤ (WriteEventBody ws ls).getD i 0 := by
  induction ws generalizing ls i with
  | nil => simp [WriteEventBody]
  | cons w ws ih =>
      cases ls with
      | nil => simp at hl
      | cons l ls =>
          cases i with
          | zero => simpa [WriteEventBody] using updateColumnWidth_ge w l
          | succ i =>
              simpa [WriteEventBody] using ih ls (by simpa using hl) i

theorem writeEventBody_length (ws ls : List Nat)
    (hl : ls.length = ws.length) :
    (WriteEventBody ws ls).length = ws.length := by
  simp [WriteEventBody, hl]

theorem foldl_writeEventBody_getD_ge (rows : List (List Nat)) (ws : List Nat)
    (hrows : ∀ r ∈ rows, r.length = ws.length) (i : Nat) :
    ws.getD i 0 ≤ (rows.foldl WriteEventBody ws).getD i 0 := by
  induction rows generalizing ws with
  | nil => simp
  | cons r rows ih =>
      have hr : r.length = ws.length := hrows r (List.mem_cons_self _ _)
      have h1 := writeEventBody_getD_ge ws r hr i
      have h2 := ih (WriteEventBody ws r) (fun r2 hr2 => by
        rw [writeEventBody_length ws r hr]
        exact hrows r2 (List.mem_cons_of_mem _ hr2))
      simp only [List.foldl_cons]
      exact le_trans h1 h2

theorem foldl_writeEventBody_length (rows : List (List Nat)) (ws : List Nat)
    (hrows : ∀ r ∈ rows, r.length = ws.length) :
    (rows.foldl WriteEventBody ws).length = ws.length := by
  induction rows generalizing ws with
  | nil => rfl
  | cons r rows ih =>
      have hr : r.length = ws.length := hrows r (List.mem_cons_self _ _)
      simp only [List.foldl_cons]
      rw [ih (WriteEventBody ws r) (fun r2 h2 => by
        rw [writeEventBody_length ws r hr]
        exact hrows r2 (List.mem_cons_of_mem _ h2)),
        writeEventBody_length ws r hr]

/-- C10: after `WriteHeader` initialises one width per field, every
`WriteEventBody` call updates each stored column width to the maximum of
its previous value, the minimum width 6, and the value length plus 2 capped
at 50; consequently no column width ever shrinks across any split of the
sequence of written rows. -/
theorem column_widths_never_shrink (fields : List String)
    (rows : List (List Nat))
    (hrows : ∀ r ∈ rows, r.length = fields.length) (i : Nat) :
    (∀ w l, updateColumnWidth w l =
      max w (max _MINIMUM_COLUMN_WIDTH (min (l + 2) _MAXIMUM_COLUMN_WIDTH))) ∧
    (∀ early late, rows = early ++ late →
      (early.foldl WriteEventBody (WriteHeader fields)).getD i 0 ≤
        (rows.foldl WriteEventBody (WriteHeader fields)).getD i 0) := by
  constructor
  · intro w l
    unfold updateColumnWidth _MINIMUM_COLUMN_WIDTH _MAXIMUM_COLUMN_WIDTH
    omega
  · intro early late hsplit
    subst hsplit
    rw [List.foldl_append]
    have hhead : (WriteHeader fields).length = fields.length := by
      simp [WriteHeader]
    have hearly : ∀ r ∈ early, r.length = (WriteHeader fields).length := by
      intro r hr
      rw [hhead]
      exact hrows r (List.mem_append_left _ hr)
    apply foldl_writeEventBody_getD_ge
    intro r hr
    rw [foldl_writeEventBody_length early (WriteHeader fields) hearly, hhead]
    exact hrows r (List.mem_append_right _ hr)

theorem column_widths_never_shrink_witness :
    (([[10, 60]] : List (List Nat)).foldl WriteEventBody
        (WriteHeader ["datetime", "message"])).getD 0 0 ≤
      (([[10, 60], [3, 1]] : List (List Nat)).foldl WriteEventBody
        (WriteHeader ["datetime", "message"])).getD 0 0 :=
  (column_widths_never_shrink ["datetime", "message"] [[10, 60], [3, 1]]
    (by decide) 0).2 [[10, 60]] [[3, 1]] rfl

end Xlsx
